import Mathlib

/-
  Verification of the authentication gate and task endpoints of the
  Todo-React-WebApp repository, as a shallow embedding in Lean 4.

  The server code is embedded as pure state-passing functions:
    - the credential store (table `account`) is a list of rows plus the
      next serial id; the task store (table `task`) likewise;
    - bcrypt is modelled symbolically: a digest remembers the plaintext it
      was derived from and `compare` is equality against it (the one-way
      property is irrelevant to the control flow being verified);
    - jsonwebtoken is modelled symbolically: a signed token carries its
      payload, issue time, expiry and the secret used to sign; `verify`
      checks the secret matches and the expiry has not passed;
    - asynchronous store faults (a rejected pool.query) are made explicit
      as `Option String` fault parameters, and the interleaving window
      between signup SELECT pre-check and its INSERT is made explicit as
      an `interfere` function applied to the store between the two calls
      (instantiated with `id` for an isolated, interference-free run).
-/

namespace TodoApp

/-- Symbolic model of bcrypt: `bcryptHash p cost` is an opaque digest from
which only `bcryptCompare` can be answered. The digest records the
plaintext; comparison is equality. -/
structure Digest where
  pw : String
deriving DecidableEq, Repr

/-- bcrypt hash(password, 10). -/
def bcryptHash (p : String) : Digest := ⟨p⟩

/-- bcrypt compare(password, digest). -/
def bcryptCompare (p : String) (d : Digest) : Bool := p == d.pw

/-- The claim sets actually minted by the two login variants:
`UserController.login` / the inline `/login` handler sign
`{ id: foundUser.id, email: foundUser.email }`, while `UserController.signin`
signs `{ user: dbUser.email }`. -/
inductive JwtPayload where
  | idEmail (id : Nat) (email : String)
  | userOnly (email : String)
deriving DecidableEq, Repr

/-- A signed JWT, symbolically: payload, issue time, expiry time (seconds),
and the secret it was signed with (standing in for the HMAC signature). -/
structure SignedToken where
  payload : JwtPayload
  iat : Nat
  exp : Nat
  sig : String
deriving DecidableEq, Repr

/-- Signing, jwt.sign(payload, secret, expiresIn); the one-hour expiry
option used by the controllers is 3600 seconds. -/
def jwtSign (payload : JwtPayload) (secret : String) (now expiresIn : Nat) : SignedToken :=
  { payload := payload, iat := now, exp := now + expiresIn, sig := secret }

/-- The value found in the `authorization` request header: absent, a string
that is not a well-formed JWT, or a well-formed signed token. -/
inductive AuthHeader where
  | missing
  | malformed (raw : String)
  | token (t : SignedToken)
deriving DecidableEq, Repr

/-- Verification, jwt.verify(token, secret), at wall-clock time `now`:
fails on an absent or malformed token, a signature made with a different
secret, or a token whose expiry has passed; otherwise it yields the
decoded payload. -/
def jwtVerify (header : AuthHeader) (secret : String) (now : Nat) : Option JwtPayload :=
  match header with
  | .missing => none
  | .malformed _ => none
  | .token t => if t.sig = secret ∧ now < t.exp then some t.payload else none

/-- A row of the `account` table: serial id, unique email, bcrypt digest
(column `password`). -/
structure Account where
  id : Nat
  email : String
  password : Digest
deriving DecidableEq, Repr

/-- The credential store: the `account` rows plus the next serial id. -/
structure CredDb where
  accounts : List Account
  nextId : Nat
deriving DecidableEq, Repr

/-- The query SELECT * FROM account WHERE email = $1 (models/User.js,
findUserByEmail, also inline in src/unnamed/part_004): the rows whose
email matches. -/
def findUserByEmail (db : CredDb) (email : String) : List Account :=
  db.accounts.filter (fun a => a.email == email)

/-- Whether the unique constraint on `email` of the `account` table
would reject an insert of this email. -/
def emailTaken (db : CredDb) (email : String) : Bool :=
  db.accounts.any (fun a => a.email == email)

/-- The successful effect of `INSERT INTO account (email, password)
VALUES ($1, $2) RETURNING id, email`: a fresh serial id is assigned and the
row appended. -/
def insertAccount (db : CredDb) (email : String) (digest : Digest) : Account × CredDb :=
  (⟨db.nextId, email, digest⟩, ⟨db.accounts ++ [⟨db.nextId, email, digest⟩], db.nextId + 1⟩)

/-- Postgres faults surfaced by the account insert; `uniqueViolation` is
error code 23505 from the unique constraint on `email`. -/
inductive PgFault where
  | uniqueViolation
deriving DecidableEq, Repr

/-- The message of a 23505 unique-violation error as Postgres reports it. -/
def pgUniqueMsg : String := "duplicate key value violates unique constraint"

/-- models/User.js `createUser`: the INSERT either violates the unique
constraint on `email` or appends a fresh row. -/
def createUser (db : CredDb) (email : String) (digest : Digest) :
    Except PgFault (Account × CredDb) :=
  if emailTaken db email then .error .uniqueViolation
  else .ok (insertAccount db email digest)

/-- The `{user: {email, password}}` request body; either field may be
absent (undefined) and, when present, may be the empty string. -/
structure UserBody where
  email : Option String
  password : Option String
deriving DecidableEq, Repr

/-- A request body `{user: ...}` where `user` itself may be absent. -/
structure UserReq where
  user : Option UserBody
deriving DecidableEq, Repr

/-- JavaScript falsiness of an optional string: `undefined` and `""` are
falsy, every other string is truthy. -/
def strFalsy : Option String → Bool
  | none => true
  | some s => s == ""

/-- The guard `!user || !user.email || !user.password` shared by signup,
signin and login. -/
def credsMissing : Option UserBody → Bool
  | none => true
  | some u => strFalsy u.email || strFalsy u.password

/-- The email actually read from the request after the falsiness guard. -/
def reqEmail (req : UserReq) : String := ((req.user.bind UserBody.email).getD "")

/-- The password actually read from the request after the falsiness guard. -/
def reqPassword (req : UserReq) : String := ((req.user.bind UserBody.password).getD "")

/-- Shorthand for a request carrying both fields. -/
def mkCreds (email pw : String) : UserReq := ⟨some ⟨some email, some pw⟩⟩

/-- An HTTP response: either a success status with a typed body, or the
uniform error shape whose body carries a message and the same status. -/
inductive ApiResponse (α : Type) where
  | ok (status : Nat) (body : α)
  | error (status : Nat) (message : String)
deriving DecidableEq, Repr

/-- An error value passed to `next(...)`: an `ApiError` carries an
explicit status; a raw store fault carries none. -/
structure JsError where
  message : String
  status : Option Nat
deriving DecidableEq, Repr

/-- The global error-handling middleware shown in
architecture_decisions.md (Error Handling Strategy): it answers with
`err.status || 500` and the error message in the uniform error shape. -/
def errorHandler {α : Type} (e : JsError) : ApiResponse α :=
  .error (e.status.getD 500) e.message

/-- The credential-store operations a request may perform, recorded in
order as a trace. -/
inductive StoreOp where
  | selectByEmail (email : String)
  | insertAccountOp (email : String)
deriving DecidableEq, Repr

/-- The 400 message of the shared field guard. -/
def requiredMsg : String := "Email and password are required"

/-- Success body of signup: id and email of the new row (never the digest). -/
structure SignupBody where
  id : Nat
  email : String
deriving DecidableEq, Repr

/-- The signup controller from server/controllers/UserController.js: guard the fields,
pre-check for an existing email (409 on a hit), hash, insert, 201 with the
new id and email. `interfere` is the store mutation committed by other
requests between the awaited SELECT and the awaited INSERT (`id` when the
run is isolated); `selFault`/`insFault` are rejections of the two
pool.query calls, which the catch block of the controller passes raw to `next`. -/
def signup (db : CredDb) (req : UserReq) (interfere : CredDb → CredDb)
    (selFault insFault : Option String) :
    ApiResponse SignupBody × CredDb × List StoreOp :=
  if credsMissing req.user then (errorHandler ⟨requiredMsg, some 400⟩, db, [])
  else
    match selFault with
    | some msg => (errorHandler ⟨msg, none⟩, db, [.selectByEmail (reqEmail req)])
    | none =>
      if (findUserByEmail db (reqEmail req)).length > 0 then
        (errorHandler ⟨"Email already exists", some 409⟩, db, [.selectByEmail (reqEmail req)])
      else
        match insFault with
        | some msg =>
            (errorHandler ⟨msg, none⟩, interfere db,
             [.selectByEmail (reqEmail req), .insertAccountOp (reqEmail req)])
        | none =>
          match createUser (interfere db) (reqEmail req) (bcryptHash (reqPassword req)) with
          | .error .uniqueViolation =>
              (errorHandler ⟨pgUniqueMsg, none⟩, interfere db,
               [.selectByEmail (reqEmail req), .insertAccountOp (reqEmail req)])
          | .ok (a, db2) =>
              (.ok 201 ⟨a.id, a.email⟩, db2,
               [.selectByEmail (reqEmail req), .insertAccountOp (reqEmail req)])

/-- The inline `POST /signup` handler of the earlier router revision
(src/unnamed/part_004): no pre-check; it hashes, inserts, and maps a 23505
unique violation from the INSERT itself to a 409 "Email already exists". -/
def signupInline (db : CredDb) (req : UserReq) : ApiResponse SignupBody × CredDb :=
  if credsMissing req.user then (errorHandler ⟨requiredMsg, some 400⟩, db)
  else
    match createUser db (reqEmail req) (bcryptHash (reqPassword req)) with
    | .error .uniqueViolation => (errorHandler ⟨"Email already exists", some 409⟩, db)
    | .ok (a, db2) => (.ok 201 ⟨a.id, a.email⟩, db2)

/-- Success body of the two authenticate variants. -/
structure LoginBody where
  id : Nat
  email : String
  token : SignedToken
deriving DecidableEq, Repr

/-- The login controller from server/controllers/UserController.js (the inline
`POST /login` handler in src/unnamed/part_004 is line-for-line the same
algorithm): guard the fields, look the email up (401 "Invalid email or
password" on a miss), compare the password (the same 401 on a mismatch),
then sign `{id, email}` with the process secret and the one-hour expiry option and
answer 200 with id, email and the token. -/
def login (secret : String) (now : Nat) (db : CredDb) (req : UserReq)
    (selFault : Option String) :
    ApiResponse LoginBody × CredDb × List StoreOp :=
  if credsMissing req.user then (errorHandler ⟨requiredMsg, some 400⟩, db, [])
  else
    match selFault with
    | some msg => (errorHandler ⟨msg, none⟩, db, [.selectByEmail (reqEmail req)])
    | none =>
      match findUserByEmail db (reqEmail req) with
      | [] =>
          (errorHandler ⟨"Invalid email or password", some 401⟩, db,
           [.selectByEmail (reqEmail req)])
      | foundUser :: _ =>
        if bcryptCompare (reqPassword req) foundUser.password then
          (.ok 200 ⟨foundUser.id, foundUser.email,
              jwtSign (.idEmail foundUser.id foundUser.email) secret now 3600⟩,
           db, [.selectByEmail (reqEmail req)])
        else
          (errorHandler ⟨"Invalid email or password", some 401⟩, db,
           [.selectByEmail (reqEmail req)])

/-- The signin controller from server/controllers/UserController.js: same shape as
`login` but a lookup miss is 404 "User not found", a password mismatch is
401 "Invalid password", and the token payload is `{user: email}`. -/
def signin (secret : String) (now : Nat) (db : CredDb) (req : UserReq)
    (selFault : Option String) :
    ApiResponse LoginBody × CredDb × List StoreOp :=
  if credsMissing req.user then (errorHandler ⟨requiredMsg, some 400⟩, db, [])
  else
    match selFault with
    | some msg => (errorHandler ⟨msg, none⟩, db, [.selectByEmail (reqEmail req)])
    | none =>
      match findUserByEmail db (reqEmail req) with
      | [] =>
          (errorHandler ⟨"User not found", some 404⟩, db, [.selectByEmail (reqEmail req)])
      | dbUser :: _ =>
        if bcryptCompare (reqPassword req) dbUser.password then
          (.ok 200 ⟨dbUser.id, dbUser.email,
              jwtSign (.userOnly dbUser.email) secret now 3600⟩,
           db, [.selectByEmail (reqEmail req)])
        else
          (errorHandler ⟨"Invalid password", some 401⟩, db, [.selectByEmail (reqEmail req)])

/-- The body of `logout` from server/controllers/UserController.js. -/
def logoutMsg : String := "Logged out successfully"

/-- The logout controller from server/controllers/UserController.js: unconditionally
200 with a success message; it takes no store and touches nothing. -/
def logout : ApiResponse String := .ok 200 logoutMsg

/-- The 401 body of the token gate. Modelled from the spec: the response
body of the middleware is elided (`{...}`) in the architecture_decisions.md
listing; the spec names the failure `Unauthorized`. -/
def deniedMsg : String := "Unauthorized"

/-- Outcome of the token gate on a request of type `ρ`: stop with a status
and message, or let a request through. -/
inductive GateResult (ρ : Type) where
  | denied (status : Nat) (message : String)
  | pass (req : ρ)
deriving DecidableEq, Repr

/-- Modelled from the spec: server/helper/auth.js is not under src — only
its listing in architecture_decisions.md, its import in the userRouter
(src/unnamed/part_003) and the spec describe it. It reads the
`authorization` header, verifies it against the process secret, answers
401 on any verification failure, and otherwise calls `next()` passing the
request through unchanged; it takes no store handle. -/
def authGate {ρ : Type} (secret : String) (now : Nat) (header : AuthHeader) (req : ρ) :
    GateResult ρ :=
  match jwtVerify header secret now with
  | none => .denied 401 deniedMsg
  | some _ => .pass req

/-- The logout route (userRouter, src/unnamed/part_003: the auth
middleware, then the controller) from the
(src/unnamed/part_003): the gate, then the unconditional acknowledgment. -/
def logoutRoute (secret : String) (now : Nat) (header : AuthHeader) (db : CredDb) :
    ApiResponse String × CredDb :=
  match authGate secret now header () with
  | .denied s m => (.error s m, db)
  | .pass _ => (logout, db)

/-- A row of the `task` table. -/
structure TaskRow where
  id : Nat
  description : String
deriving DecidableEq, Repr

/-- The task store: the `task` rows plus the next serial id. -/
structure TaskDb where
  tasks : List TaskRow
  nextId : Nat
deriving DecidableEq, Repr

/-- The GET / route (src/unnamed/part_002): SELECT * FROM task, 200 with
the rows; the route carries no auth middleware. -/
def getTasks (db : TaskDb) : ApiResponse (List TaskRow) := .ok 200 db.tasks

/-- The `{task: {description}}` request body. -/
structure TaskBody where
  description : Option String
deriving DecidableEq, Repr

/-- A request body `{task: ...}` where `task` itself may be absent. -/
structure TaskReq where
  task : Option TaskBody
deriving DecidableEq, Repr

/-- The guard `!task || !task.description` of the create handler. -/
def taskMissing : Option TaskBody → Bool
  | none => true
  | some t => strFalsy t.description

/-- The 400 message of the create handler guard. -/
def descRequiredMsg : String := "Task description is required"

/-- The `POST /create` handler body (src/unnamed/part_002): guard the
description, `INSERT INTO task (description) VALUES ($1) RETURNING *`,
201 with the new row. -/
def createTask (db : TaskDb) (req : TaskReq) : ApiResponse TaskRow × TaskDb :=
  if taskMissing req.task then (.error 400 descRequiredMsg, db)
  else
    (.ok 201 ⟨db.nextId, ((req.task.bind TaskBody.description).getD "")⟩,
     ⟨db.tasks ++ [⟨db.nextId, ((req.task.bind TaskBody.description).getD "")⟩], db.nextId + 1⟩)

/-- Modelled from the spec: the final todoRouter wiring is not under src —
architecture_decisions.md shows `router.post("/create", auth, postTask)`
with `router.get("/", getTasks)` public, and the spec states that task
creation requires the bearer header while listing and deletion require no
token. The gate runs first; on pass the in-src create handler body runs. -/
def postCreate (secret : String) (now : Nat) (header : AuthHeader)
    (db : TaskDb) (req : TaskReq) : ApiResponse TaskRow × TaskDb :=
  match authGate secret now header req with
  | .denied s m => (.error s m, db)
  | .pass r => createTask db r

/-- Modelled from the spec: the final TaskController deleteTask is not
under src — only its integration test (index.test.js: DELETE of id 99999
expects 404 with message "Task not found") and the spec §8 describe it.
Deleting an id present in the store removes it and answers 200 with the
deleted id; a missing id answers 404 "Task not found". The route carries
no auth middleware. -/
def deleteTask (db : TaskDb) (id : Nat) : ApiResponse Nat × TaskDb :=
  if db.tasks.any (fun t => t.id == id) then
    (.ok 200 id, ⟨db.tasks.filter (fun t => !(t.id == id)), db.nextId⟩)
  else (.error 404 "Task not found", db)

/-- The earlier in-src `DELETE /delete/:id` handlers (src/unnamed/part_002
and src/Todo/todo/server/index.js): `DELETE ... RETURNING id`, then always
200 with `result.rows[0]` — the deleted id when a row matched, an empty
body (undefined) otherwise. Kept for comparison with the final behavior. -/
def deleteTaskInline (db : TaskDb) (id : Nat) : ApiResponse (Option Nat) × TaskDb :=
  (.ok 200 (((db.tasks.filter (fun t => t.id == id)).head?).map TaskRow.id),
   ⟨db.tasks.filter (fun t => !(t.id == id)), db.nextId⟩)

/-- A concrete registered account for witnesses and counterexamples. -/
def exDigest : Digest := bcryptHash "secret123"

/-- A concrete credential store holding one account. -/
def exDb : CredDb := ⟨[⟨1, "a@test.com", exDigest⟩], 2⟩

end TodoApp

namespace TodoApp

theorem strFalsy_some_ne {s : String} (h : s ≠ "") : strFalsy (some s) = false := by
  simp [strFalsy, h]

theorem credsMissing_mkCreds {email pw : String} (h1 : email ≠ "") (h2 : pw ≠ "") :
    credsMissing (mkCreds email pw).user = false := by
  simp [credsMissing, mkCreds, strFalsy_some_ne h1, strFalsy_some_ne h2]

theorem mem_of_findUserByEmail {db : CredDb} {email : String} {a : Account} {l : List Account}
    (h : findUserByEmail db email = a :: l) : a ∈ db.accounts ∧ a.email = email := by
  have hmem : a ∈ findUserByEmail db email := by rw [h]; exact List.mem_cons_self a l
  have := List.mem_filter.mp hmem
  exact ⟨this.1, by simpa using this.2⟩

theorem emailTaken_false_of_find_nil {db : CredDb} {email : String}
    (h : findUserByEmail db email = []) : emailTaken db email = false := by
  rw [emailTaken, List.any_eq_false]
  intro a ha
  have : a ∉ findUserByEmail db email := by rw [h]; exact List.not_mem_nil a
  intro hbeq
  exact this (List.mem_filter.mpr ⟨ha, hbeq⟩)

/-- Claim C1 (corrected, amended part): for the login operation —
UserController.login and the line-for-line identical inline POST /login
handler of src/unnamed/part_004 — every failed authenticate request,
whether the email is unregistered or registered with a non-matching
password, yields one and the same failure response: status 401 with the
message Invalid email or password, so a caller cannot tell from the
response whether the email exists. The hypothesis covers both failure
modes at once: either no account matches the email, or every matching
account has a digest the supplied password does not verify against. The
signin variant violates the claim as frozen; see the counterexample. -/
theorem login_failure_uniform (secret : String) (now : Nat) (db : CredDb)
    (email pw : String) (h1 : email ≠ "") (h2 : pw ≠ "")
    (hfail : ∀ a ∈ db.accounts, a.email = email → bcryptCompare pw a.password = false) :
    (login secret now db (mkCreds email pw) none).1
      = ApiResponse.error 401 "Invalid email or password" := by
  unfold login
  rw [credsMissing_mkCreds h1 h2]
  simp only [Bool.false_eq_true, if_false]
  cases hfind : findUserByEmail db (reqEmail (mkCreds email pw)) with
  | nil => rfl
  | cons a l =>
    have hm := mem_of_findUserByEmail hfind
    have hc : bcryptCompare pw a.password = false := hfail a hm.1 hm.2
    have : reqPassword (mkCreds email pw) = pw := rfl
    simp [this, hc, errorHandler]

/-- Claim C1 counterexample: the claim as frozen fails on
UserController.signin, the other exposure of authenticate — an unknown
email yields 404 User not found while a wrong password for a registered
email yields 401 Invalid password, so the two failure responses differ in
both status and message, and the unknown-email failure is not even
Unauthorized. -/
theorem signin_distinguishes_failures :
    (signin "jwtsecret" 0 exDb ⟨some ⟨some "b@test.com", some "secret123"⟩⟩ none).1
        = ApiResponse.error 404 "User not found"
      ∧ (signin "jwtsecret" 0 exDb ⟨some ⟨some "a@test.com", some "wrongpass"⟩⟩ none).1
        = ApiResponse.error 401 "Invalid password"
      ∧ (404 : Nat) ≠ 401 := by
  refine ⟨?_, ?_, by decide⟩ <;> rfl

/-- Claim C1 witness: the amended theorem applied at a concrete store
and an unregistered email. -/
theorem login_failure_uniform_witness :
    (login "jwtsecret" 0 exDb (mkCreds "nobody@test.com" "pw") none).1
      = ApiResponse.error 401 "Invalid email or password" :=
  login_failure_uniform "jwtsecret" 0 exDb "nobody@test.com" "pw"
    (by decide) (by decide) (by decide)

end TodoApp

namespace TodoApp

theorem credsMissing_some {email pw : String} (h1 : email ≠ "") (h2 : pw ≠ "") :
    credsMissing (some ⟨some email, some pw⟩) = false := by
  simp [credsMissing, strFalsy_some_ne h1, strFalsy_some_ne h2]

/-- Claim C2 (corrected, amended part): an authenticate call with a
registered email and matching password returns id, email and a token
signed with the process-wide secret and carrying the fixed one-hour
(3600 s) expiry. The login token embeds the claim set id and email of
the authenticated account; the signin variant returns the same id, email,
expiry and secret but its token embeds only the email (under a user key),
omitting the id — which is why the claim as frozen is refuted by the
counterexample below. -/
theorem login_mints_id_email_token (secret : String) (now : Nat) (db : CredDb)
    (email pw : String) (a : Account) (l : List Account)
    (h1 : email ≠ "") (h2 : pw ≠ "")
    (hfind : findUserByEmail db email = a :: l)
    (hcmp : bcryptCompare pw a.password = true) :
    (login secret now db (mkCreds email pw) none).1
        = ApiResponse.ok 200 ⟨a.id, a.email, jwtSign (.idEmail a.id a.email) secret now 3600⟩
      ∧ (signin secret now db (mkCreds email pw) none).1
        = ApiResponse.ok 200 ⟨a.id, a.email, jwtSign (.userOnly a.email) secret now 3600⟩
      ∧ (jwtSign (.idEmail a.id a.email) secret now 3600).sig = secret
      ∧ (jwtSign (.idEmail a.id a.email) secret now 3600).exp = now + 3600
      ∧ (jwtSign (.idEmail a.id a.email) secret now 3600).payload = .idEmail a.id a.email := by
  have hm : credsMissing (mkCreds email pw).user = false := credsMissing_some h1 h2
  have hfind2 : findUserByEmail db (reqEmail (mkCreds email pw)) = a :: l := hfind
  have hp : bcryptCompare (reqPassword (mkCreds email pw)) a.password = true := hcmp
  refine ⟨?_, ?_, rfl, rfl, rfl⟩
  · unfold login
    rw [hm]
    simp [hfind2, hp]
  · unfold signin
    rw [hm]
    simp [hfind2, hp]

/-- Claim C2 counterexample: at a concrete registered account, signin
succeeds but the minted token payload carries only the email, not the
claim set id and email the claim requires. -/
theorem signin_token_omits_id :
    (signin "jwtsecret" 0 exDb (mkCreds "a@test.com" "secret123") none).1
        = ApiResponse.ok 200 ⟨1, "a@test.com",
            { payload := .userOnly "a@test.com", iat := 0, exp := 3600, sig := "jwtsecret" }⟩
      ∧ JwtPayload.userOnly "a@test.com" ≠ JwtPayload.idEmail 1 "a@test.com" :=
  ⟨rfl, by decide⟩

/-- Claim C2 witness: the amended theorem applied at a concrete
registered account with its matching password. -/
theorem login_mints_id_email_token_witness :
    (login "jwtsecret" 0 exDb (mkCreds "a@test.com" "secret123") none).1
        = ApiResponse.ok 200 ⟨1, "a@test.com",
            jwtSign (.idEmail 1 "a@test.com") "jwtsecret" 0 3600⟩ :=
  (login_mints_id_email_token "jwtsecret" 0 exDb "a@test.com" "secret123"
      ⟨1, "a@test.com", exDigest⟩ [] (by decide) (by decide) (by decide) (by decide)).1

/-- Claim C8 (confirmed): authenticate is read-only against the
credential store — every login or signin call, successful or failed,
returns the account rows unchanged, and any sequence of login calls
folded over the store leaves it exactly where it started. -/
theorem authenticate_read_only (secret : String) (now : Nat) (db : CredDb)
    (req : UserReq) (f : Option String) (reqs : List UserReq) :
    (login secret now db req f).2.1 = db
    ∧ (signin secret now db req f).2.1 = db
    ∧ List.foldl (fun d r => (login secret now d r f).2.1) db reqs = db := by
  have key : ∀ (d : CredDb) (r : UserReq), (login secret now d r f).2.1 = d := by
    intro d r
    unfold login
    split
    · rfl
    · cases f with
      | some m => rfl
      | none =>
        cases hfind : findUserByEmail d (reqEmail r) with
        | nil => rfl
        | cons a l =>
          dsimp only
          split <;> rfl
  refine ⟨key db req, ?_, ?_⟩
  · unfold signin
    split
    · rfl
    · cases f with
      | some m => rfl
      | none =>
        cases hfind : findUserByEmail db (reqEmail req) with
        | nil => rfl
        | cons a l =>
          dsimp only
          split <;> rfl
  · induction reqs generalizing db with
    | nil => rfl
    | cons r rs ih =>
      rw [List.foldl_cons, key db r]
      exact ih db

/-- Claim C9 (confirmed): a logout request that passes the token gate
unconditionally answers 200 Logged out successfully and leaves the
credential store untouched; and the presented token still verifies at
every instant before its embedded expiry, since no server-side state
records the logout. -/
theorem logout_noop_ack (secret : String) (now : Nat) (db : CredDb)
    (header : AuthHeader) (p : JwtPayload)
    (hgate : jwtVerify header secret now = some p) :
    logoutRoute secret now header db = (ApiResponse.ok 200 logoutMsg, db)
    ∧ ∀ t : SignedToken, header = .token t →
        ∀ t2 : Nat, t2 < t.exp → jwtVerify header secret t2 = some t.payload := by
  constructor
  · unfold logoutRoute authGate
    rw [hgate]
    rfl
  · intro t ht t2 h2
    subst ht
    have hsig : t.sig = secret := by
      simp only [jwtVerify] at hgate
      by_cases hc : t.sig = secret ∧ now < t.exp
      · exact hc.1
      · rw [if_neg hc] at hgate
        exact absurd hgate (by simp)
    simp only [jwtVerify]
    rw [if_pos ⟨hsig, h2⟩]

/-- Claim C9 witness: the theorem applied to a token freshly minted with
the process secret. -/
theorem logout_noop_ack_witness :
    logoutRoute "jwtsecret" 0
        (.token (jwtSign (.idEmail 1 "a@test.com") "jwtsecret" 0 3600)) exDb
      = (ApiResponse.ok 200 logoutMsg, exDb) :=
  (logout_noop_ack "jwtsecret" 0 exDb
      (.token (jwtSign (.idEmail 1 "a@test.com") "jwtsecret" 0 3600))
      (.idEmail 1 "a@test.com") (by decide)).1

/-- Claim C10 (confirmed): an empty-string email or password is treated
by signup, login and signin exactly like an absent field — the falsiness
check rejects the request with 400 and an empty store-operation trace,
and the entire response equals the one for a request with no user object
at all, so the non-empty-strings precondition is enforced at the
boundary. -/
theorem empty_fields_rejected_like_missing (secret : String) (now : Nat) (db : CredDb)
    (email pw : String) :
    signup db ⟨some ⟨some "", some pw⟩⟩ id none none = signup db ⟨none⟩ id none none
    ∧ signup db ⟨some ⟨some email, some ""⟩⟩ id none none = signup db ⟨none⟩ id none none
    ∧ signup db ⟨none⟩ id none none = (ApiResponse.error 400 requiredMsg, db, [])
    ∧ login secret now db ⟨some ⟨some "", some pw⟩⟩ none = login secret now db ⟨none⟩ none
    ∧ login secret now db ⟨some ⟨some email, some ""⟩⟩ none = login secret now db ⟨none⟩ none
    ∧ login secret now db ⟨none⟩ none = (ApiResponse.error 400 requiredMsg, db, [])
    ∧ signin secret now db ⟨some ⟨some "", some pw⟩⟩ none = signin secret now db ⟨none⟩ none
    ∧ signin secret now db ⟨some ⟨some email, some ""⟩⟩ none = signin secret now db ⟨none⟩ none
    ∧ signin secret now db ⟨none⟩ none = (ApiResponse.error 400 requiredMsg, db, []) := by
  have hA : ∀ s : String, credsMissing (some ⟨some "", some s⟩) = true := by
    intro s
    simp [credsMissing, strFalsy]
  have hB : ∀ s : String, credsMissing (some ⟨some s, some ""⟩) = true := by
    intro s
    simp [credsMissing, strFalsy]
  have hN : credsMissing none = true := rfl
  refine ⟨?_, ?_, ?_, ?_, ?_, ?_, ?_, ?_, ?_⟩ <;>
    simp [signup, login, signin, hA, hB, hN, errorHandler]

end TodoApp

namespace TodoApp

theorem reqEmail_mk (email pw : String) : reqEmail (mkCreds email pw) = email := rfl

theorem reqPassword_mk (email pw : String) : reqPassword (mkCreds email pw) = pw := rfl

theorem find_eq_nil_of_accounts_filter {db : CredDb} {email : String}
    (h : findUserByEmail db email = []) :
    db.accounts.filter (fun a => a.email == email) = [] := h

/-- Claim C4 (corrected, amended part): a register call whose email
already names an account fails with 409 Email already exists and leaves
the store unchanged; across the two calls of a duplicate pair the account
count grows by exactly one. But when the INSERT itself violates the
uniqueness constraint even though the pre-check passed (a concurrent
insert landing in the await window between SELECT and INSERT),
UserController.signup propagates the raw store fault as a generic 500,
not as Conflict; only the earlier inline signup of src/unnamed/part_004,
which has no pre-check, maps the INSERT unique violation to 409. -/
theorem signup_duplicate_conflict (db : CredDb) (email pw pw2 : String)
    (h1 : email ≠ "") (h2 : pw ≠ "") (h3 : pw2 ≠ "") :
    (findUserByEmail db email ≠ [] →
        signup db (mkCreds email pw) id none none
          = (ApiResponse.error 409 "Email already exists", db, [.selectByEmail email]))
    ∧ (findUserByEmail db email = [] →
        ((signup db (mkCreds email pw) id none none).2.1).accounts.length
            = db.accounts.length + 1
        ∧ (signup ((signup db (mkCreds email pw) id none none).2.1)
              (mkCreds email pw2) id none none).1
            = ApiResponse.error 409 "Email already exists"
        ∧ (signup ((signup db (mkCreds email pw) id none none).2.1)
              (mkCreds email pw2) id none none).2.1
            = (signup db (mkCreds email pw) id none none).2.1)
    ∧ (findUserByEmail db email = [] →
        (signup db (mkCreds email pw)
            (fun d => (insertAccount d email (bcryptHash pw2)).2) none none).1
          = ApiResponse.error 500 pgUniqueMsg)
    ∧ (emailTaken db email = true →
        (signupInline db (mkCreds email pw)).1 = ApiResponse.error 409 "Email already exists"
        ∧ (signupInline db (mkCreds email pw)).2 = db) := by
  have hm : credsMissing (mkCreds email pw).user = false := credsMissing_some h1 h2
  have hm2 : credsMissing (mkCreds email pw2).user = false := credsMissing_some h1 h3
  refine ⟨?_, ?_, ?_, ?_⟩
  · intro hdup
    have hlen : 0 < (findUserByEmail db email).length := List.length_pos.mpr hdup
    unfold signup
    rw [hm]
    simp [reqEmail_mk, reqPassword_mk, hlen, hdup, errorHandler]
  · intro hnil
    have htakenE : emailTaken db email = false := emailTaken_false_of_find_nil hnil
    have hstep : signup db (mkCreds email pw) id none none
        = (.ok 201 ⟨db.nextId, email⟩,
           ⟨db.accounts ++ [⟨db.nextId, email, bcryptHash pw⟩], db.nextId + 1⟩,
           [.selectByEmail email, .insertAccountOp email]) := by
      unfold signup
      rw [hm]
      simp [reqEmail_mk, reqPassword_mk, hnil, createUser, htakenE, insertAccount]
    rw [hstep]
    have hfind1 : findUserByEmail
        (⟨db.accounts ++ [⟨db.nextId, email, bcryptHash pw⟩], db.nextId + 1⟩ : CredDb) email
        = [⟨db.nextId, email, bcryptHash pw⟩] := by
      unfold findUserByEmail
      rw [List.filter_append]
      rw [find_eq_nil_of_accounts_filter hnil]
      simp
    have hne1 : findUserByEmail
        (⟨db.accounts ++ [⟨db.nextId, email, bcryptHash pw⟩], db.nextId + 1⟩ : CredDb) email
        ≠ [] := by
      rw [hfind1]
      simp
    have hlen1 : 0 < (findUserByEmail
        (⟨db.accounts ++ [⟨db.nextId, email, bcryptHash pw⟩], db.nextId + 1⟩ : CredDb)
        email).length := List.length_pos.mpr hne1
    refine ⟨by simp, ?_, ?_⟩
    · unfold signup
      rw [hm2]
      simp [reqEmail_mk, reqPassword_mk, hlen1, hne1, errorHandler]
    · unfold signup
      rw [hm2]
      simp [reqEmail_mk, reqPassword_mk, hlen1, hne1, errorHandler]
  · intro hnil
    have htakenI : emailTaken
        (⟨db.accounts ++ [⟨db.nextId, email, bcryptHash pw2⟩], db.nextId + 1⟩ : CredDb) email
        = true := by
      simp [emailTaken, List.any_append]
    unfold signup
    rw [hm]
    simp [reqEmail_mk, reqPassword_mk, hnil, createUser, htakenI, insertAccount, errorHandler]
  · intro htaken
    unfold signupInline
    rw [hm]
    simp [reqEmail_mk, reqPassword_mk, createUser, htaken, errorHandler]

/-- Claim C4 counterexample: a concrete run in which the pre-check
passes on an empty store and a concurrent insert makes the INSERT violate
uniqueness — UserController.signup answers 500 with the Postgres message,
not the Conflict 409 the claim states. -/
theorem insert_unique_violation_not_conflict :
    findUserByEmail ⟨[], 1⟩ "a@test.com" = []
    ∧ (signup ⟨[], 1⟩ (mkCreds "a@test.com" "pw1")
          (fun d => (insertAccount d "a@test.com" (bcryptHash "pw2")).2) none none).1
        = ApiResponse.error 500 pgUniqueMsg
    ∧ ApiResponse.error 500 pgUniqueMsg
        ≠ (ApiResponse.error 409 "Email already exists" : ApiResponse SignupBody) :=
  ⟨rfl, rfl, by decide⟩

/-- Claim C4 witness: the amended theorem applied at a concrete store
already holding the email being registered. -/
theorem signup_duplicate_conflict_witness :
    signup exDb (mkCreds "a@test.com" "other") id none none
      = (ApiResponse.error 409 "Email already exists", exDb, [.selectByEmail "a@test.com"]) :=
  (signup_duplicate_conflict exDb "a@test.com" "other" "pw2"
      (by decide) (by decide) (by decide)).1 (by decide)

/-- Claim C7 (confirmed): signup and both authenticate variants reject a
request with a missing email or password with 400 before performing any
credential-store operation — the store-operation trace is empty and the
store is returned unchanged — and a store fault from the SELECT or from
the INSERT is answered as a wrapped generic 500 error in the uniform
error shape rather than escaping raw. -/
theorem validation_before_store (db : CredDb) (secret : String) (now : Nat)
    (email pw msg : String) (u0 : Option UserBody)
    (hmiss : credsMissing u0 = true)
    (h1 : email ≠ "") (h2 : pw ≠ "") :
    signup db ⟨u0⟩ id none none = (ApiResponse.error 400 requiredMsg, db, [])
    ∧ login secret now db ⟨u0⟩ none = (ApiResponse.error 400 requiredMsg, db, [])
    ∧ signin secret now db ⟨u0⟩ none = (ApiResponse.error 400 requiredMsg, db, [])
    ∧ (signup db (mkCreds email pw) id (some msg) none).1 = ApiResponse.error 500 msg
    ∧ (login secret now db (mkCreds email pw) (some msg)).1 = ApiResponse.error 500 msg
    ∧ (signin secret now db (mkCreds email pw) (some msg)).1 = ApiResponse.error 500 msg
    ∧ (findUserByEmail db email = [] →
        (signup db (mkCreds email pw) id none (some msg)).1 = ApiResponse.error 500 msg) := by
  have hm : credsMissing (mkCreds email pw).user = false := credsMissing_some h1 h2
  refine ⟨?_, ?_, ?_, ?_, ?_, ?_, ?_⟩
  · simp [signup, hmiss, errorHandler]
  · simp [login, hmiss, errorHandler]
  · simp [signin, hmiss, errorHandler]
  · unfold signup
    rw [hm]
    simp [errorHandler]
  · unfold login
    rw [hm]
    simp [errorHandler]
  · unfold signin
    rw [hm]
    simp [errorHandler]
  · intro hnil
    unfold signup
    rw [hm]
    simp [reqEmail_mk, reqPassword_mk, hnil, errorHandler]

/-- Claim C7 witness: the theorem applied at a concrete store, a request
with no user object, and a concrete SELECT-time store fault. -/
theorem validation_before_store_witness :
    signup exDb ⟨none⟩ id none none = (ApiResponse.error 400 requiredMsg, exDb, [])
    ∧ (signup exDb (mkCreds "b@test.com" "pw") id none (some "connection reset")).1
        = ApiResponse.error 500 "connection reset" :=
  ⟨(validation_before_store exDb "s" 0 "b@test.com" "pw" "connection reset" none
      (by decide) (by decide) (by decide)).1,
   (validation_before_store exDb "s" 0 "b@test.com" "pw" "connection reset" none
      (by decide) (by decide) (by decide)).2.2.2.2.2.2 (by decide)⟩

end TodoApp
namespace TodoApp

/-- Claim C5 (confirmed): the authorize gate fails with 401 on a missing
header, on a header that is not a well-formed token, on a well-formed
token signed with a different secret, and on a correctly signed token
whose expiry has passed; a token freshly minted with the process secret
is let through, and whatever the gate lets through is the request itself,
unchanged (final conjunct). The gate takes no credential store argument
at all, so it reads none. -/
theorem authGate_cases {ρ : Type} (secret : String) (now : Nat) (req : ρ) :
    authGate secret now .missing req = GateResult.denied 401 deniedMsg
    ∧ (∀ s : String, authGate secret now (.malformed s) req = GateResult.denied 401 deniedMsg)
    ∧ (∀ t : SignedToken, t.sig ≠ secret →
        authGate secret now (.token t) req = GateResult.denied 401 deniedMsg)
    ∧ (∀ t : SignedToken, t.exp ≤ now →
        authGate secret now (.token t) req = GateResult.denied 401 deniedMsg)
    ∧ (∀ p : JwtPayload,
        authGate secret now (.token (jwtSign p secret now 3600)) req = GateResult.pass req)
    ∧ (∀ (h : AuthHeader) (r : ρ), authGate secret now h req = GateResult.pass r → r = req) := by
  refine ⟨rfl, fun s => rfl, ?_, ?_, ?_, ?_⟩
  · intro t hne
    unfold authGate jwtVerify
    dsimp only
    rw [if_neg (fun hand => hne hand.1)]
  · intro t hle
    unfold authGate jwtVerify
    dsimp only
    rw [if_neg (fun hand => absurd hand.2 (Nat.not_lt.mpr hle))]
  · intro p
    unfold authGate jwtVerify
    dsimp only
    rw [if_pos ⟨rfl, by simp [jwtSign]⟩]
  · intro h r hpass
    unfold authGate at hpass
    cases h0 : jwtVerify h secret now with
    | none =>
      rw [h0] at hpass
      exact absurd hpass (by simp)
    | some q =>
      rw [h0] at hpass
      simpa using hpass.symm

/-- Claim C5 witness: the theorem applied to a concrete expired token
and to a concrete freshly minted one. -/
theorem authGate_cases_witness :
    authGate "jwtsecret" 5000
        (.token ⟨.idEmail 1 "a@test.com", 0, 3600, "jwtsecret"⟩) (0 : Nat)
      = GateResult.denied 401 deniedMsg
    ∧ authGate "jwtsecret" 5000
        (.token (jwtSign (.idEmail 1 "a@test.com") "jwtsecret" 5000 3600)) (0 : Nat)
      = GateResult.pass 0 :=
  ⟨(authGate_cases "jwtsecret" 5000 0).2.2.2.1 ⟨.idEmail 1 "a@test.com", 0, 3600, "jwtsecret"⟩
      (by decide),
   (authGate_cases "jwtsecret" 5000 0).2.2.2.2.1 (.idEmail 1 "a@test.com")⟩

/-- Claim C3 (confirmed): a task-creation request carrying a freshly
minted valid token in the authorization header passes the gate and is
answered 201 with the generated id — the next serial of the task store —
and the row appended; the same request with no token is answered 401 with
the store unchanged; task listing and task deletion, by contrast, take no
header argument at all and succeed without any token. -/
theorem create_requires_token_but_not_delete_or_list
    (secret : String) (now : Nat) (db : TaskDb) (p : JwtPayload) (d : String)
    (hd : d ≠ "") :
    (postCreate secret now (.token (jwtSign p secret now 3600)) db ⟨some ⟨some d⟩⟩).1
        = ApiResponse.ok 201 ⟨db.nextId, d⟩
    ∧ (postCreate secret now (.token (jwtSign p secret now 3600)) db ⟨some ⟨some d⟩⟩).2
        = ⟨db.tasks ++ [⟨db.nextId, d⟩], db.nextId + 1⟩
    ∧ postCreate secret now .missing db ⟨some ⟨some d⟩⟩
        = (ApiResponse.error 401 deniedMsg, db)
    ∧ getTasks db = ApiResponse.ok 200 db.tasks
    ∧ (∀ t ∈ db.tasks, (deleteTask db t.id).1 = ApiResponse.ok 200 t.id) := by
  have hgate : authGate secret now (.token (jwtSign p secret now 3600))
      (⟨some ⟨some d⟩⟩ : TaskReq) = GateResult.pass ⟨some ⟨some d⟩⟩ := by
    unfold authGate jwtVerify
    dsimp only
    rw [if_pos ⟨rfl, by simp [jwtSign]⟩]
  have hmiss : taskMissing (some ⟨some d⟩) = false := by
    simp [taskMissing, strFalsy, hd]
  refine ⟨?_, ?_, rfl, rfl, ?_⟩
  · unfold postCreate
    rw [hgate]
    simp [createTask, hmiss]
  · unfold postCreate
    rw [hgate]
    simp [createTask, hmiss]
  · intro t ht
    have hany : db.tasks.any (fun t2 => t2.id == t.id) = true :=
      List.any_eq_true.mpr ⟨t, ht, by simp⟩
    simp [deleteTask, hany]

/-- Claim C3 witness: the theorem applied at an empty task store with a
concrete freshly minted token and a concrete description. -/
theorem create_requires_token_but_not_delete_or_list_witness :
    (postCreate "jwtsecret" 0
        (.token (jwtSign (.idEmail 1 "a@test.com") "jwtsecret" 0 3600))
        ⟨[], 1⟩ ⟨some ⟨some "Test task"⟩⟩).1
      = ApiResponse.ok 201 ⟨1, "Test task"⟩
    ∧ postCreate "jwtsecret" 0 .missing ⟨[], 1⟩ ⟨some ⟨some "Test task"⟩⟩
      = (ApiResponse.error 401 deniedMsg, ⟨[], 1⟩) :=
  ⟨(create_requires_token_but_not_delete_or_list "jwtsecret" 0 ⟨[], 1⟩
      (.idEmail 1 "a@test.com") "Test task" (by decide)).1,
   (create_requires_token_but_not_delete_or_list "jwtsecret" 0 ⟨[], 1⟩
      (.idEmail 1 "a@test.com") "Test task" (by decide)).2.2.1⟩

/-- Claim C6 (confirmed): deleting a task id absent from the task store
answers 404 with the message Task not found and leaves the store
unchanged, while deleting a present id answers 200 with the deleted id in
the body. -/
theorem delete_missing_404_present_200 (db : TaskDb) (id : Nat) :
    (db.tasks.any (fun t => t.id == id) = false →
        deleteTask db id = (ApiResponse.error 404 "Task not found", db))
    ∧ (db.tasks.any (fun t => t.id == id) = true →
        (deleteTask db id).1 = ApiResponse.ok 200 id) := by
  constructor <;> intro h <;> simp [deleteTask, h]

/-- Claim C6 witness: the theorem applied at a one-task store, deleting
the absent id 99999 and the present id 1. -/
theorem delete_missing_404_present_200_witness :
    deleteTask ⟨[⟨1, "x"⟩], 2⟩ 99999 = (ApiResponse.error 404 "Task not found", ⟨[⟨1, "x"⟩], 2⟩)
    ∧ (deleteTask ⟨[⟨1, "x"⟩], 2⟩ 1).1 = ApiResponse.ok 200 1 :=
  ⟨(delete_missing_404_present_200 ⟨[⟨1, "x"⟩], 2⟩ 99999).1 (by decide),
   (delete_missing_404_present_200 ⟨[⟨1, "x"⟩], 2⟩ 1).2 (by decide)⟩

end TodoApp
